import Mathlib

set_option linter.unusedVariables false

namespace P3D

/-- A camera as an opaque handle (external pytorch3d camera objects are not in scope). -/
structure Camera where
  cid : Nat
deriving DecidableEq

/-- A path manager handle (iopath.common.file_io.PathManager, external). -/
structure PathManager where
  pid : Nat
deriving DecidableEq

/-- The evaluation task enum from pytorch3d.implicitron.dataset.data_source:
singlesequence or multisequence. -/
inductive Task where
  | SINGLE_SEQUENCE
  | MULTI_SEQUENCE
deriving DecidableEq

/-- The string value of each Task enum member. -/
def Task.value : Task → String
  | .SINGLE_SEQUENCE => "singlesequence"
  | .MULTI_SEQUENCE => "multisequence"

/-- The Python str() rendering of each Task enum member, as used in f-strings of main. -/
def Task.pyStr : Task → String
  | .SINGLE_SEQUENCE => "Task.SINGLE_SEQUENCE"
  | .MULTI_SEQUENCE => "Task.MULTI_SEQUENCE"

/-- Background colors: Python float triples, embedded as exact rationals
(only ever constructed from literals and passed through). -/
abbrev Color := Rat × Rat × Rat

/-- The default value of the bg_color parameter of evaluate_dbir_for_category. -/
def bg_color_default : Color := (0, 0, 0)

/-- The frame_annotation record carried by each entry of a dataset's frame_annots. -/
structure FrameAnnotation where
  sequence_name : String
deriving DecidableEq

/-- One entry of ImplicitronDataset.frame_annots. -/
structure FrameAnnot where
  frame_annotation : FrameAnnotation
deriving DecidableEq

/-- A single dataset item (one frame), with the fields the code in scope reads. -/
structure Frame where
  frame_type : String
  camera : Camera
deriving DecidableEq

/-- A collated batch of frames (pytorch3d FrameData after FrameData.collate). -/
structure FrameData where
  frame_type : List String
  camera : List Camera
deriving DecidableEq

/-- FrameData.collate: collates a list of frames into one batch, fieldwise. -/
def FrameData.collate (l : List Frame) : FrameData :=
  { frame_type := l.map Frame.frame_type, camera := l.map Frame.camera }

/-- The test dataset, with the fields eval_demo.py reads: image_width,
frame_annots, the indexable items, and sequence_indices_in_order. -/
structure Dataset where
  image_width : Option Nat
  frame_annots : List FrameAnnot
  items : List Frame
  sequence_indices_in_order : String → List Nat

/-- The dataset_map_provider_JsonIndexDatasetMapProvider_args dict built by
evaluate_dbir_for_category. -/
structure DataSourceArgs where
  category : String
  dataset_root : String
  assert_single_seq : Bool
  task_str : String
  test_on_train : Bool
  load_point_clouds : Bool
  test_restrict_sequence_id : Int
  path_manager : Option PathManager
deriving DecidableEq

/-- The datasets returned by get_datasets_and_dataloaders (train/val/test splits). -/
structure DataSets where
  train : Option Dataset
  val : Option Dataset
  test : Option Dataset

/-- The dataloaders returned by get_datasets_and_dataloaders; each is the finite
sequence of batches it would yield when iterated. -/
structure DataLoaders where
  train : Option (List FrameData)
  val : Option (List FrameData)
  test : Option (List FrameData)

/-- The ModelDBIR constructor arguments plus its device state. -/
structure ModelDBIR where
  render_image_width : Nat
  render_image_height : Nat
  bg_color : Color
  max_points : Nat
  on_cuda : Bool
deriving DecidableEq

/-- model.cuda(): moves the model to CUDA. -/
def ModelDBIR.cuda (m : ModelDBIR) : ModelDBIR := { m with on_cuda := true }

/-- The lpips.LPIPS perceptual-similarity module with its device state. -/
structure LpipsModel where
  net : String
  on_cuda : Bool
deriving DecidableEq

/-- lpips_model.cuda(): moves the LPIPS module to CUDA. -/
def LpipsModel.cuda (m : LpipsModel) : LpipsModel := { m with on_cuda := true }

/-- An opaque render produced by the model (preds["implicitron_render"]). -/
structure Render where
  rid : Nat
deriving DecidableEq

/-- The model output dict, of which only the "implicitron_render" entry is read. -/
structure Preds where
  implicitron_render : Render
deriving DecidableEq

/-- An opaque per-batch result of eval_batch. -/
structure EvalResult where
  eid : Nat
deriving DecidableEq

/-- An opaque aggregated metrics value (what eval_demo passes around, prints and
aggregates once summarize_nvs_eval_results has produced it). -/
structure Results where
  rv : Nat
deriving DecidableEq

/-- The dict returned (second) by summarize_nvs_eval_results, of which the code
reads the "results" entry. -/
structure CategoryResultDict where
  results : Results
deriving DecidableEq

/-- Python exceptions that the embedded code can raise. -/
inductive PyError where
  | valueError (msg : String)
  | indexError (msg : String)
deriving DecidableEq

/-- The external world of eval_demo.py: every library call the script delegates to,
plus the CO3D_DATASET_ROOT environment variable and the CO3D_CATEGORIES list.
All of these are opaque external dependencies of the code in scope. -/
structure Env where
  co3d_dataset_root : String
  CO3D_CATEGORIES : List String
  is_known_frame : String → Bool
  get_datasets_and_dataloaders : DataSourceArgs → DataSets × DataLoaders
  dataclass_to_cuda : FrameData → FrameData
  run_model : ModelDBIR → FrameData → Preds
  eval_batch : FrameData → Render → Color → LpipsModel → Option (List Camera) → EvalResult
  summarize_nvs_eval_results : List EvalResult → Task → Nat × CategoryResultDict
  aggregate_nvs_results : List Results → Results

/-- torch.where over a boolean vector: the indices holding True, in order. -/
def torchWhere : List Bool → List Nat
  | [] => []
  | b :: rest =>
      if b then 0 :: (torchWhere rest).map (· + 1)
      else (torchWhere rest).map (· + 1)

/-- Advanced indexing of a camera batch by an index list; none on an out-of-range index. -/
def indexSelect (cams : List Camera) : List Nat → Option (List Camera)
  | [] => some []
  | i :: rest =>
      match cams[i]?, indexSelect cams rest with
      | some c, some cs => some (c :: cs)
      | _, _ => none

/-- torch.utils.data.Subset item accesses: the items of a dataset at an index list;
none on an out-of-range index (Python IndexError). -/
def selectItems (items : List Frame) : List Nat → Option (List Frame)
  | [] => some []
  | i :: rest =>
      match items[i]?, selectItems items rest with
      | some f, some fs => some (f :: fs)
      | _, _ => none

/-- Embedding of eval_demo._get_all_source_cameras: restrict the dataset to the
frames of the given sequence, load them unshuffled as one batch covering the whole
sequence, and keep the cameras of the frames whose type is a known frame.
The empty-sequence case is the torch DataLoader rejecting batch_size=0. -/
def get_all_source_cameras (env : Env) (dataset : Dataset) (sequence_name : String)
    (num_workers : Nat) : Except PyError (List Camera) :=
  let seq_idx := dataset.sequence_indices_in_order sequence_name
  match selectItems dataset.items seq_idx with
  | none => .error (.indexError "list index out of range")
  | some sel =>
      if sel.isEmpty then
        .error (.valueError "batch_size should be a positive integer value, but got batch_size=0")
      else
        let all_frame_data := FrameData.collate sel
        let is_known := all_frame_data.frame_type.map env.is_known_frame
        match indexSelect all_frame_data.camera (torchWhere is_known) with
        | none => .error (.indexError "index out of range")
        | some source_cameras => .ok source_cameras

/-- single_sequence_id if single_sequence_id is not None else -1. -/
def normalize_sequence_id (single_sequence_id : Option Int) : Int :=
  match single_sequence_id with
  | some i => i
  | none => -1

/-- The dataset_map_provider args dict exactly as evaluate_dbir_for_category builds it. -/
def dataSourceArgsFor (env : Env) (category : String) (task : Task)
    (single_sequence_id : Option Int) (path_manager : Option PathManager) : DataSourceArgs :=
  { category := category
    dataset_root := env.co3d_dataset_root
    assert_single_seq := decide (task = Task.SINGLE_SEQUENCE)
    task_str := task.value
    test_on_train := false
    load_point_clouds := true
    test_restrict_sequence_id := normalize_sequence_id single_sequence_id
    path_manager := path_manager }

/-- Observable steps of evaluate_dbir_for_category, in execution order. -/
inductive Event where
  | setSeed (n : Nat)
  | buildDataSource (args : DataSourceArgs)
  | buildModel (m : ModelDBIR)
  | modelCuda
  | buildLpips (net : String)
  | lpipsCuda
  | printLine (s : String)
  | cudaBatch (fd : FrameData)
  | runModelOn (fd : FrameData)
  | evalBatchDone (r : EvalResult)
deriving DecidableEq

/-- The single-sequence branch of evaluate_dbir_for_category: read the sequence
name of the first test frame annotation and gather all of that sequence's known
cameras; the multi-sequence branch passes None. -/
def get_source_cameras (env : Env) (task : Task) (test_dataset : Dataset)
    (num_workers : Nat) : Except PyError (Option (List Camera)) :=
  if task = Task.SINGLE_SEQUENCE then
    match test_dataset.frame_annots with
    | [] => .error (.indexError "list index out of range")
    | a :: _ =>
        match get_all_source_cameras env test_dataset a.frame_annotation.sequence_name
            num_workers with
        | .error e => .error e
        | .ok cams => .ok (some cams)
  else
    .ok none

/-- One iteration of the evaluation loop: move the batch to CUDA, run the DBIR
model on it, and evaluate the resulting render with eval_batch. -/
def eval_one_batch (env : Env) (model : ModelDBIR) (bg_color : Color)
    (lpips_model : LpipsModel) (all_source_cameras : Option (List Camera))
    (frame_data : FrameData) : EvalResult :=
  let fd := env.dataclass_to_cuda frame_data
  let preds := env.run_model model fd
  env.eval_batch fd preds.implicitron_render bg_color lpips_model all_source_cameras

/-- The body of evaluate_dbir_for_category after the seed and args construction:
fetch datasets and dataloaders, check the test split, gather source cameras for
the single-sequence task, check the image size, build the DBIR and LPIPS models,
run the evaluation loop, and summarize. Returns the event trace and the outcome. -/
def evaluate_body (env : Env) (args : DataSourceArgs) (task : Task) (bg_color : Color)
    (num_workers : Nat) : List Event × Except PyError Results :=
  let dd := env.get_datasets_and_dataloaders args
  match dd.1.test, dd.2.test with
  | some test_dataset, some test_dataloader =>
      (match get_source_cameras env task test_dataset num_workers with
       | .error e => ([], .error e)
       | .ok all_source_cameras =>
           match test_dataset.image_width with
           | none => ([], .error (.valueError "Image size should be set in the dataset"))
           | some image_size =>
               let model0 : ModelDBIR :=
                 { render_image_width := image_size
                   render_image_height := image_size
                   bg_color := bg_color
                   max_points := 100000
                   on_cuda := false }
               let model := model0.cuda
               let lpips0 : LpipsModel := { net := "vgg", on_cuda := false }
               let lpips_model := lpips0.cuda
               let per_batch_eval_results :=
                 test_dataloader.map
                   (eval_one_batch env model bg_color lpips_model all_source_cameras)
               let loop_trace :=
                 test_dataloader.flatMap (fun fd =>
                   [Event.cudaBatch (env.dataclass_to_cuda fd),
                    Event.runModelOn (env.dataclass_to_cuda fd),
                    Event.evalBatchDone
                      (eval_one_batch env model bg_color lpips_model all_source_cameras fd)])
               let category_result :=
                 (env.summarize_nvs_eval_results per_batch_eval_results task).2
               (Event.buildModel model0 :: Event.modelCuda :: Event.buildLpips "vgg"
                  :: Event.lpipsCuda :: Event.printLine "Evaluating DBIR model ..."
                  :: loop_trace,
                .ok category_result.results))
  | _, _ => ([], .error (.valueError "must have a test dataset."))

/-- Embedding of eval_demo.evaluate_dbir_for_category: set the torch seed to 42,
build the data source args, and run the body. Returns the event trace and either
the category_result["results"] value or the raised exception. -/
def evaluate_dbir_for_category (env : Env) (category : String) (task : Task)
    (bg_color : Color) (single_sequence_id : Option Int) (num_workers : Nat)
    (path_manager : Option PathManager) : List Event × Except PyError Results :=
  let args := dataSourceArgsFor env category task single_sequence_id path_manager
  let body := evaluate_body env args task bg_color num_workers
  (Event.setSeed 42 :: Event.buildDataSource args :: body.1, body.2)

/-- The task_results dict of main: an insertion-ordered association list, as
Python dicts are. -/
abbrev TaskDict := List (Task × List Results)

/-- task_results[task] lookup (main only reads keys it has inserted). -/
def dictGetD (d : TaskDict) (t : Task) : List Results :=
  match d with
  | [] => []
  | (k, v) :: rest => if k = t then v else dictGetD rest t

/-- task_results[task] = v: replaces in place if the key exists, else inserts at
the end (Python dict insertion order). -/
def dictSet (d : TaskDict) (t : Task) (v : List Results) : TaskDict :=
  match d with
  | [] => [(t, v)]
  | (k, w) :: rest => if k = t then (k, v) :: rest else (k, w) :: dictSet rest t v

/-- task_results[task].append(r). -/
def dictAppend (d : TaskDict) (t : Task) (r : Results) : TaskDict :=
  dictSet d t (dictGetD d t ++ [r])

/-- Observable steps of main, in execution order. -/
inductive MainEvent where
  | callEval (category : String) (task : Task) (single_sequence_id : Option Int)
  | printLine (s : String)
  | printedResult (r : Results)
  | printedAggregate (task : Task) (r : Results)
deriving DecidableEq

/-- main's call to evaluate_dbir_for_category: only category, task and
single_sequence_id are passed; bg_color, num_workers and path_manager keep
their declared defaults. -/
def evalCall (env : Env) (category : String) (task : Task)
    (single_sequence_id : Option Int) : Except PyError Results :=
  (evaluate_dbir_for_category env category task bg_color_default single_sequence_id
    16 none).2

/-- The per-result header line printed by main. -/
def resultsHeader (task : Task) (category : String)
    (single_sequence_id : Option Int) : String :=
  "Results for task=" ++ task.pyStr ++ "; category=" ++ category ++ ";" ++
    (match single_sequence_id with
     | some i => " sequence=" ++ toString i ++ ":"
     | none => ":")

/-- Embedding of eval_demo._print_aggregate_results as the list of prints it
performs: aggregate task_results[task] with aggregate_nvs_results and
pretty-print it under a header. -/
def print_aggregate_results (env : Env) (task : Task) (task_results : TaskDict) :
    List MainEvent :=
  let aggregate_task_result := env.aggregate_nvs_results (dictGetD task_results task)
  [MainEvent.printLine "",
   MainEvent.printLine ("Aggregate results for task=" ++ task.pyStr ++ ":"),
   MainEvent.printedAggregate task aggregate_task_result,
   MainEvent.printLine ""]

/-- The inner loop of main over single_sequence_id values for one category:
call evaluate_dbir_for_category, print the result, and append it to
task_results[task]. An exception aborts main. -/
def seqLoop (env : Env) (task : Task) (category : String) :
    List (Option Int) → TaskDict → List MainEvent × Except PyError TaskDict
  | [], d => ([], .ok d)
  | sid :: rest, d =>
      match evalCall env category task sid with
      | .error e => ([MainEvent.callEval category task sid], .error e)
      | .ok category_result =>
          let evs := [MainEvent.callEval category task sid,
                      MainEvent.printLine "",
                      MainEvent.printLine (resultsHeader task category sid),
                      MainEvent.printedResult category_result,
                      MainEvent.printLine ""]
          let d1 := dictAppend d task category_result
          let next := seqLoop env task category rest d1
          (evs ++ next.1, next.2)

/-- The loop of main over categories for one task: run the sequence loop for the
category, then print the running aggregate for the task. -/
def catLoop (env : Env) (task : Task) (sids : List (Option Int)) :
    List String → TaskDict → List MainEvent × Except PyError TaskDict
  | [], d => ([], .ok d)
  | category :: rest, d =>
      let inner := seqLoop env task category sids d
      match inner.2 with
      | .error e => (inner.1, .error e)
      | .ok d1 =>
          let aggEvs := print_aggregate_results env task d1
          let next := catLoop env task sids rest d1
          (inner.1 ++ aggEvs ++ next.1, next.2)

/-- CO3D_CATEGORIES[: (20 if task == Task.SINGLE_SEQUENCE else 10)]. -/
def taskCategories (env : Env) (task : Task) : List String :=
  env.CO3D_CATEGORIES.take (if task = Task.SINGLE_SEQUENCE then 20 else 10)

/-- (0, 1) if task == Task.SINGLE_SEQUENCE else (None,). -/
def taskSequenceIds (task : Task) : List (Option Int) :=
  if task = Task.SINGLE_SEQUENCE then [some 0, some 1] else [none]

/-- The outer loop of main over tasks: initialize task_results[task] to [] and
run the category loop. -/
def taskLoop (env : Env) : List Task → TaskDict → List MainEvent × Except PyError TaskDict
  | [], d => ([], .ok d)
  | task :: rest, d =>
      let d0 := dictSet d task []
      let inner := catLoop env task (taskSequenceIds task) (taskCategories env task) d0
      match inner.2 with
      | .error e => (inner.1, .error e)
      | .ok d1 =>
          let next := taskLoop env rest d1
          (inner.1 ++ next.1, next.2)

/-- Embedding of eval_demo.main: evaluate both tasks, then print the aggregate
once more for every task in task_results (dict insertion order). Returns the
print/call trace and the final task_results dict. -/
def main (env : Env) : List MainEvent × Except PyError TaskDict :=
  let run := taskLoop env [Task.SINGLE_SEQUENCE, Task.MULTI_SEQUENCE] []
  match run.2 with
  | .error e => (run.1, .error e)
  | .ok d =>
      (run.1 ++ d.flatMap (fun p => print_aggregate_results env p.1 d), .ok d)

/-- The default configuration object get_default_args(ImplicitronDataSource)
(opaque: produced by the external config system). -/
structure OmegaConfig where
  oid : Nat
deriving DecidableEq

/-- The external world of tests/implicitron/test_data_source.py: the default
config of ImplicitronDataSource, the OmegaConf.to_yaml serializer (second
argument is sort_keys), and the current contents of the golden file
tests/implicitron/data/data_source.yaml. -/
structure TestWorld where
  implicitron_data_source_defaults : OmegaConfig
  to_yaml : OmegaConfig → Bool → String
  data_source_yaml : String

/-- The module-level DEBUG flag of test_data_source.py. -/
def DEBUG : Bool := false

/-- Embedding of TestDataSource.test_one: serialize the default config with
sort_keys=False, overwrite the golden file with it when debug is set, then
compare against the (possibly rewritten) golden file contents. Returns the
world after the possible write and whether the assertion passed. -/
def test_one (debug : Bool) (w : TestWorld) : TestWorld × Bool :=
  let cfg := w.implicitron_data_source_defaults
  let yaml := w.to_yaml cfg false
  let w1 := if debug then { w with data_source_yaml := yaml } else w
  (w1, decide (yaml = w1.data_source_yaml))

/-- A concrete camera for witness environments. -/
def cam0 : Camera := ⟨0⟩

/-- A concrete known source frame for witness environments. -/
def frame0 : Frame := { frame_type := "train_known", camera := cam0 }

/-- A concrete well-formed test dataset for witness environments. -/
def goodDataset : Dataset :=
  { image_width := some 8
    frame_annots := [⟨⟨"seq0"⟩⟩]
    items := [frame0]
    sequence_indices_in_order := fun _ => [0] }

/-- A concrete test batch for witness environments. -/
def goodBatch : FrameData := { frame_type := ["test_target"], camera := [⟨1⟩] }

/-- A concrete environment in which every call of the evaluation code succeeds. -/
def okEnv : Env :=
  { co3d_dataset_root := "/data"
    CO3D_CATEGORIES := ["apple", "banana"]
    is_known_frame := fun s => decide (s = "train_known")
    get_datasets_and_dataloaders := fun _ =>
      ({ train := none, val := none, test := some goodDataset },
       { train := none, val := none, test := some [goodBatch] })
    dataclass_to_cuda := fun fd => fd
    run_model := fun _ _ => ⟨⟨0⟩⟩
    eval_batch := fun _ _ _ _ _ => ⟨7⟩
    summarize_nvs_eval_results := fun l _ => (l.length, ⟨⟨l.length⟩⟩)
    aggregate_nvs_results := fun l => ⟨l.length⟩ }

/-- A concrete test dataset whose frame_annots list is empty and whose image
width is unset. -/
def cexDataset : Dataset :=
  { image_width := none
    frame_annots := []
    items := []
    sequence_indices_in_order := fun _ => [] }

/-- A concrete environment exposing the error-order gap of
evaluate_dbir_for_category: the test split exists, but indexing
frame_annots[0] on the empty list fails before the image-size check. -/
def cexEnv : Env :=
  { okEnv with
    get_datasets_and_dataloaders := fun _ =>
      ({ train := none, val := none, test := some cexDataset },
       { train := none, val := none, test := some [] }) }

/-- A concrete snapshot-test world whose golden file matches the serializer. -/
def matchWorld : TestWorld :=
  { implicitron_data_source_defaults := ⟨0⟩
    to_yaml := fun cfg sorted => if sorted then "sorted-yaml" else "unsorted-yaml"
    data_source_yaml := "unsorted-yaml" }

/-- A concrete snapshot-test world whose golden file is stale. -/
def staleWorld : TestWorld :=
  { matchWorld with data_source_yaml := "old-yaml" }

/-- Characterization of a successful run of evaluate_dbir_for_category: given a
test dataset and dataloader, a successful source-camera step, and a set image
width, the run traces seed, data-source construction, model and LPIPS
construction and CUDA moves, then one cuda/model/eval step per batch in order,
and returns the results entry of the summarized per-batch evaluations. -/
theorem evaluate_ok (env : Env) (category : String) (task : Task) (bg_color : Color)
    (single_sequence_id : Option Int) (num_workers : Nat)
    (path_manager : Option PathManager) (datasets : DataSets)
    (dataloaders : DataLoaders) (test_dataset : Dataset) (batches : List FrameData)
    (cams : Option (List Camera)) (image_size : Nat)
    (hget : env.get_datasets_and_dataloaders
        (dataSourceArgsFor env category task single_sequence_id path_manager)
        = (datasets, dataloaders))
    (htest : datasets.test = some test_dataset)
    (hload : dataloaders.test = some batches)
    (hcams : get_source_cameras env task test_dataset num_workers = Except.ok cams)
    (hw : test_dataset.image_width = some image_size) :
    evaluate_dbir_for_category env category task bg_color single_sequence_id
        num_workers path_manager
      = (Event.setSeed 42
          :: Event.buildDataSource
               (dataSourceArgsFor env category task single_sequence_id path_manager)
          :: Event.buildModel ⟨image_size, image_size, bg_color, 100000, false⟩
          :: Event.modelCuda
          :: Event.buildLpips "vgg"
          :: Event.lpipsCuda
          :: Event.printLine "Evaluating DBIR model ..."
          :: batches.flatMap (fun fd =>
               [Event.cudaBatch (env.dataclass_to_cuda fd),
                Event.runModelOn (env.dataclass_to_cuda fd),
                Event.evalBatchDone
                  (eval_one_batch env ⟨image_size, image_size, bg_color, 100000, true⟩
                    bg_color ⟨"vgg", true⟩ cams fd)]),
         Except.ok ((env.summarize_nvs_eval_results
             (batches.map (eval_one_batch env
               ⟨image_size, image_size, bg_color, 100000, true⟩ bg_color
               ⟨"vgg", true⟩ cams)) task).2.results)) := by
  simp [evaluate_dbir_for_category, evaluate_body, hget, htest, hload, hcams, hw,
    ModelDBIR.cuda, LpipsModel.cuda]

/-- C1: for every test dataloader yielding a finite sequence of frame batches,
evaluate_dbir_for_category processes the batches in order, for each batch moving
it to CUDA, running the DBIR model on it, and appending exactly one eval_batch
result, so that after the loop the accumulated list has one entry per yielded
batch in yield order; it passes this list to summarize_nvs_eval_results and
returns the results entry of the summarized category result. -/
theorem C1_eval_loop_per_batch (env : Env) (category : String) (task : Task)
    (bg_color : Color) (single_sequence_id : Option Int) (num_workers : Nat)
    (path_manager : Option PathManager) (datasets : DataSets)
    (dataloaders : DataLoaders) (test_dataset : Dataset) (batches : List FrameData)
    (cams : Option (List Camera)) (image_size : Nat)
    (hget : env.get_datasets_and_dataloaders
        (dataSourceArgsFor env category task single_sequence_id path_manager)
        = (datasets, dataloaders))
    (htest : datasets.test = some test_dataset)
    (hload : dataloaders.test = some batches)
    (hcams : get_source_cameras env task test_dataset num_workers = Except.ok cams)
    (hw : test_dataset.image_width = some image_size) :
    (evaluate_dbir_for_category env category task bg_color single_sequence_id
        num_workers path_manager).2
      = Except.ok ((env.summarize_nvs_eval_results
          (batches.map (eval_one_batch env ⟨image_size, image_size, bg_color, 100000, true⟩
            bg_color ⟨"vgg", true⟩ cams)) task).2.results)
    ∧ (batches.map (eval_one_batch env ⟨image_size, image_size, bg_color, 100000, true⟩
        bg_color ⟨"vgg", true⟩ cams)).length = batches.length
    ∧ (evaluate_dbir_for_category env category task bg_color single_sequence_id
        num_workers path_manager).1
      = [Event.setSeed 42,
         Event.buildDataSource
           (dataSourceArgsFor env category task single_sequence_id path_manager),
         Event.buildModel ⟨image_size, image_size, bg_color, 100000, false⟩,
         Event.modelCuda, Event.buildLpips "vgg", Event.lpipsCuda,
         Event.printLine "Evaluating DBIR model ..."]
        ++ batches.flatMap (fun fd =>
             [Event.cudaBatch (env.dataclass_to_cuda fd),
              Event.runModelOn (env.dataclass_to_cuda fd),
              Event.evalBatchDone
                (eval_one_batch env ⟨image_size, image_size, bg_color, 100000, true⟩
                  bg_color ⟨"vgg", true⟩ cams fd)]) := by
  have h := evaluate_ok env category task bg_color single_sequence_id num_workers
    path_manager datasets dataloaders test_dataset batches cams image_size
    hget htest hload hcams hw
  refine ⟨?_, ?_, ?_⟩ <;> simp [h]

/-- Witness for C1 at a concrete environment: one test batch, task
MULTI_SEQUENCE, all hypotheses discharged by rfl. -/
theorem C1_eval_loop_per_batch_witness :
    (evaluate_dbir_for_category okEnv "apple" Task.MULTI_SEQUENCE bg_color_default
        none 16 none).2
      = Except.ok ((okEnv.summarize_nvs_eval_results
          ([goodBatch].map (eval_one_batch okEnv ⟨8, 8, bg_color_default, 100000, true⟩
            bg_color_default ⟨"vgg", true⟩ none)) Task.MULTI_SEQUENCE).2.results)
    ∧ ([goodBatch].map (eval_one_batch okEnv ⟨8, 8, bg_color_default, 100000, true⟩
        bg_color_default ⟨"vgg", true⟩ none)).length = [goodBatch].length
    ∧ (evaluate_dbir_for_category okEnv "apple" Task.MULTI_SEQUENCE bg_color_default
        none 16 none).1
      = [Event.setSeed 42,
         Event.buildDataSource
           (dataSourceArgsFor okEnv "apple" Task.MULTI_SEQUENCE none none),
         Event.buildModel ⟨8, 8, bg_color_default, 100000, false⟩,
         Event.modelCuda, Event.buildLpips "vgg", Event.lpipsCuda,
         Event.printLine "Evaluating DBIR model ..."]
        ++ [goodBatch].flatMap (fun fd =>
             [Event.cudaBatch (okEnv.dataclass_to_cuda fd),
              Event.runModelOn (okEnv.dataclass_to_cuda fd),
              Event.evalBatchDone
                (eval_one_batch okEnv ⟨8, 8, bg_color_default, 100000, true⟩
                  bg_color_default ⟨"vgg", true⟩ none fd)]) :=
  C1_eval_loop_per_batch okEnv "apple" Task.MULTI_SEQUENCE bg_color_default none 16
    none ⟨none, none, some goodDataset⟩ ⟨none, none, some [goodBatch]⟩ goodDataset
    [goodBatch] none 8 rfl rfl rfl rfl rfl

/-- C5: every call configures the data source with test_on_train=False,
load_point_clouds=True, assert_single_seq true exactly when the task is
SINGLE_SEQUENCE, task_str equal to the task's value, and
test_restrict_sequence_id equal to the given single_sequence_id when it is not
None and to -1 when it is None. -/
theorem C5_data_source_configuration (env : Env) (category : String) (task : Task)
    (bg_color : Color) (single_sequence_id : Option Int) (num_workers : Nat)
    (path_manager : Option PathManager) :
    (evaluate_dbir_for_category env category task bg_color single_sequence_id
        num_workers path_manager).1.take 2
      = [Event.setSeed 42,
         Event.buildDataSource
           (dataSourceArgsFor env category task single_sequence_id path_manager)]
    ∧ (dataSourceArgsFor env category task single_sequence_id path_manager).test_on_train
        = false
    ∧ (dataSourceArgsFor env category task single_sequence_id
        path_manager).load_point_clouds = true
    ∧ ((dataSourceArgsFor env category task single_sequence_id
        path_manager).assert_single_seq = true ↔ task = Task.SINGLE_SEQUENCE)
    ∧ (dataSourceArgsFor env category task single_sequence_id path_manager).task_str
        = task.value
    ∧ (∀ i : Int, single_sequence_id = some i →
        (dataSourceArgsFor env category task single_sequence_id
          path_manager).test_restrict_sequence_id = i)
    ∧ (single_sequence_id = none →
        (dataSourceArgsFor env category task single_sequence_id
          path_manager).test_restrict_sequence_id = -1) := by
  refine ⟨rfl, rfl, rfl, by simp [dataSourceArgsFor], rfl, ?_, ?_⟩
  · intro i hi
    simp [dataSourceArgsFor, normalize_sequence_id, hi]
  · intro hn
    simp [dataSourceArgsFor, normalize_sequence_id, hn]

/-- Witness for C5 at a concrete call. -/
theorem C5_data_source_configuration_witness :
    (evaluate_dbir_for_category okEnv "apple" Task.SINGLE_SEQUENCE bg_color_default
        (some 1) 16 none).1.take 2
      = [Event.setSeed 42,
         Event.buildDataSource
           (dataSourceArgsFor okEnv "apple" Task.SINGLE_SEQUENCE (some 1) none)]
    ∧ (dataSourceArgsFor okEnv "apple" Task.SINGLE_SEQUENCE (some 1) none).test_on_train
        = false
    ∧ (dataSourceArgsFor okEnv "apple" Task.SINGLE_SEQUENCE (some 1)
        none).load_point_clouds = true
    ∧ ((dataSourceArgsFor okEnv "apple" Task.SINGLE_SEQUENCE (some 1)
        none).assert_single_seq = true ↔ Task.SINGLE_SEQUENCE = Task.SINGLE_SEQUENCE)
    ∧ (dataSourceArgsFor okEnv "apple" Task.SINGLE_SEQUENCE (some 1) none).task_str
        = Task.SINGLE_SEQUENCE.value
    ∧ (∀ i : Int, (some 1 : Option Int) = some i →
        (dataSourceArgsFor okEnv "apple" Task.SINGLE_SEQUENCE (some 1)
          none).test_restrict_sequence_id = i)
    ∧ ((some 1 : Option Int) = none →
        (dataSourceArgsFor okEnv "apple" Task.SINGLE_SEQUENCE (some 1)
          none).test_restrict_sequence_id = -1) :=
  C5_data_source_configuration okEnv "apple" Task.SINGLE_SEQUENCE bg_color_default
    (some 1) 16 none

/-- C9: every call sets the torch seed to 42 as its very first step, before any
data loading, model construction, or evaluation; and the embedded function is
deterministic in the two-run sense: equal arguments and environment give equal
traces and results. -/
theorem C9_seed_then_deterministic (env : Env) (category : String) (task : Task)
    (bg_color : Color) (single_sequence_id : Option Int) (num_workers : Nat)
    (path_manager : Option PathManager) :
    (evaluate_dbir_for_category env category task bg_color single_sequence_id
        num_workers path_manager).1.head? = some (Event.setSeed 42)
    ∧ evaluate_dbir_for_category env category task bg_color single_sequence_id
        num_workers path_manager
      = evaluate_dbir_for_category env category task bg_color single_sequence_id
        num_workers path_manager :=
  ⟨rfl, rfl⟩

/-- C7: the baseline model is a ModelDBIR with a square render of the test
dataset's image width, the caller-supplied bg_color (default black), and
max_points = 100000, moved to CUDA; the perceptual model is LPIPS with net vgg
on CUDA. -/
theorem C7_model_and_lpips (env : Env) (category : String) (task : Task)
    (bg_color : Color) (single_sequence_id : Option Int) (num_workers : Nat)
    (path_manager : Option PathManager) (datasets : DataSets)
    (dataloaders : DataLoaders) (test_dataset : Dataset) (batches : List FrameData)
    (cams : Option (List Camera)) (image_size : Nat)
    (hget : env.get_datasets_and_dataloaders
        (dataSourceArgsFor env category task single_sequence_id path_manager)
        = (datasets, dataloaders))
    (htest : datasets.test = some test_dataset)
    (hload : dataloaders.test = some batches)
    (hcams : get_source_cameras env task test_dataset num_workers = Except.ok cams)
    (hw : test_dataset.image_width = some image_size) :
    (evaluate_dbir_for_category env category task bg_color single_sequence_id
        num_workers path_manager).1.take 7
      = [Event.setSeed 42,
         Event.buildDataSource
           (dataSourceArgsFor env category task single_sequence_id path_manager),
         Event.buildModel ⟨image_size, image_size, bg_color, 100000, false⟩,
         Event.modelCuda, Event.buildLpips "vgg", Event.lpipsCuda,
         Event.printLine "Evaluating DBIR model ..."]
    ∧ (evaluate_dbir_for_category env category task bg_color single_sequence_id
        num_workers path_manager).2
      = Except.ok ((env.summarize_nvs_eval_results
          (batches.map (eval_one_batch env ⟨image_size, image_size, bg_color, 100000, true⟩
            bg_color ⟨"vgg", true⟩ cams)) task).2.results)
    ∧ (⟨image_size, image_size, bg_color, 100000, false⟩ : ModelDBIR).cuda
        = ⟨image_size, image_size, bg_color, 100000, true⟩
    ∧ (⟨"vgg", false⟩ : LpipsModel).cuda = ⟨"vgg", true⟩
    ∧ bg_color_default = ((0 : Rat), (0 : Rat), (0 : Rat)) := by
  have h := evaluate_ok env category task bg_color single_sequence_id num_workers
    path_manager datasets dataloaders test_dataset batches cams image_size
    hget htest hload hcams hw
  refine ⟨?_, ?_, rfl, rfl, rfl⟩ <;> simp [h]

/-- Witness for C7 at a concrete environment. -/
theorem C7_model_and_lpips_witness :
    (evaluate_dbir_for_category okEnv "apple" Task.MULTI_SEQUENCE bg_color_default
        none 16 none).1.take 7
      = [Event.setSeed 42,
         Event.buildDataSource
           (dataSourceArgsFor okEnv "apple" Task.MULTI_SEQUENCE none none),
         Event.buildModel ⟨8, 8, bg_color_default, 100000, false⟩,
         Event.modelCuda, Event.buildLpips "vgg", Event.lpipsCuda,
         Event.printLine "Evaluating DBIR model ..."]
    ∧ (evaluate_dbir_for_category okEnv "apple" Task.MULTI_SEQUENCE bg_color_default
        none 16 none).2
      = Except.ok ((okEnv.summarize_nvs_eval_results
          ([goodBatch].map (eval_one_batch okEnv ⟨8, 8, bg_color_default, 100000, true⟩
            bg_color_default ⟨"vgg", true⟩ none)) Task.MULTI_SEQUENCE).2.results)
    ∧ (⟨8, 8, bg_color_default, 100000, false⟩ : ModelDBIR).cuda
        = ⟨8, 8, bg_color_default, 100000, true⟩
    ∧ (⟨"vgg", false⟩ : LpipsModel).cuda = ⟨"vgg", true⟩
    ∧ bg_color_default = ((0 : Rat), (0 : Rat), (0 : Rat)) :=
  C7_model_and_lpips okEnv "apple" Task.MULTI_SEQUENCE bg_color_default none 16 none
    ⟨none, none, some goodDataset⟩ ⟨none, none, some [goodBatch]⟩ goodDataset
    [goodBatch] none 8 rfl rfl rfl rfl rfl

/-- Shifting lemma: selecting shifted indices from a camera list with one more
head element selects the original indices from the tail. -/
theorem indexSelect_map_succ (c : Camera) (cs : List Camera) (idx : List Nat) :
    indexSelect (c :: cs) (idx.map (· + 1)) = indexSelect cs idx := by
  induction idx with
  | nil => rfl
  | cons i rest ih => simp [indexSelect, ih]

/-- Selecting the cameras at the True positions of a pointwise predicate over
frame types is filtering the frames by that predicate and taking their cameras. -/
theorem torchWhere_select (p : String → Bool) (sel : List Frame) :
    indexSelect (sel.map Frame.camera) (torchWhere (sel.map (fun f => p f.frame_type)))
      = some ((sel.filter (fun f => p f.frame_type)).map Frame.camera) := by
  induction sel with
  | nil => rfl
  | cons f fs ih =>
      by_cases hp : p f.frame_type
      · simp [torchWhere, hp, indexSelect, indexSelect_map_succ, ih, List.filter_cons]
      · simp [torchWhere, hp, indexSelect_map_succ, ih, List.filter_cons]

/-- When the sequence frames load, _get_all_source_cameras returns exactly the
cameras of the sequence frames whose type is a known frame, in sequence order. -/
theorem get_all_source_cameras_eq (env : Env) (ds : Dataset) (seq : String)
    (nw : Nat) (sel : List Frame)
    (hsel : selectItems ds.items (ds.sequence_indices_in_order seq) = some sel)
    (hne : sel ≠ []) :
    get_all_source_cameras env ds seq nw
      = Except.ok ((sel.filter (fun f => env.is_known_frame f.frame_type)).map
          Frame.camera) := by
  unfold get_all_source_cameras
  have hempty : sel.isEmpty = false := by
    cases sel with
    | nil => exact absurd rfl hne
    | cons a l => rfl
  simp [hsel, hempty, FrameData.collate, Function.comp_def, torchWhere_select]

/-- In the single-sequence task, get_source_cameras returns the known cameras of
the first test frame's sequence. -/
theorem get_source_cameras_single (env : Env) (ds : Dataset) (nw : Nat)
    (a : FrameAnnot) (rest : List FrameAnnot) (sel : List Frame)
    (hA : ds.frame_annots = a :: rest)
    (hsel : selectItems ds.items
        (ds.sequence_indices_in_order a.frame_annotation.sequence_name) = some sel)
    (hne : sel ≠ []) :
    get_source_cameras env Task.SINGLE_SEQUENCE ds nw
      = Except.ok (some ((sel.filter (fun f => env.is_known_frame f.frame_type)).map
          Frame.camera)) := by
  unfold get_source_cameras
  simp [hA, get_all_source_cameras_eq env ds _ nw sel hsel hne]

/-- In the multi-sequence task, get_source_cameras returns None. -/
theorem get_source_cameras_multi (env : Env) (ds : Dataset) (nw : Nat) :
    get_source_cameras env Task.MULTI_SEQUENCE ds nw = Except.ok none := rfl

/-- C8: in the single-sequence task every eval_batch call receives as
source_cameras exactly the cameras of the frames of the first test frame's
sequence whose type satisfies is_known_frame, in sequence order (the sequence
loaded unshuffled as one batch); in the multi-sequence task every eval_batch
call receives None. -/
theorem C8_eval_source_cameras (env : Env) (category : String) (bg_color : Color)
    (single_sequence_id : Option Int) (num_workers : Nat)
    (path_manager : Option PathManager) :
    (∀ (datasets : DataSets) (dataloaders : DataLoaders) (test_dataset : Dataset)
        (batches : List FrameData) (a : FrameAnnot) (rest : List FrameAnnot)
        (sel : List Frame) (image_size : Nat),
      env.get_datasets_and_dataloaders
          (dataSourceArgsFor env category Task.SINGLE_SEQUENCE single_sequence_id
            path_manager) = (datasets, dataloaders) →
      datasets.test = some test_dataset →
      dataloaders.test = some batches →
      test_dataset.frame_annots = a :: rest →
      selectItems test_dataset.items
          (test_dataset.sequence_indices_in_order a.frame_annotation.sequence_name)
        = some sel →
      sel ≠ [] →
      test_dataset.image_width = some image_size →
      (evaluate_dbir_for_category env category Task.SINGLE_SEQUENCE bg_color
          single_sequence_id num_workers path_manager).2
        = Except.ok ((env.summarize_nvs_eval_results
            (batches.map (eval_one_batch env
              ⟨image_size, image_size, bg_color, 100000, true⟩ bg_color ⟨"vgg", true⟩
              (some ((sel.filter (fun f => env.is_known_frame f.frame_type)).map
                Frame.camera)))) Task.SINGLE_SEQUENCE).2.results))
    ∧ (∀ (datasets : DataSets) (dataloaders : DataLoaders) (test_dataset : Dataset)
        (batches : List FrameData) (image_size : Nat),
      env.get_datasets_and_dataloaders
          (dataSourceArgsFor env category Task.MULTI_SEQUENCE single_sequence_id
            path_manager) = (datasets, dataloaders) →
      datasets.test = some test_dataset →
      dataloaders.test = some batches →
      test_dataset.image_width = some image_size →
      (evaluate_dbir_for_category env category Task.MULTI_SEQUENCE bg_color
          single_sequence_id num_workers path_manager).2
        = Except.ok ((env.summarize_nvs_eval_results
            (batches.map (eval_one_batch env
              ⟨image_size, image_size, bg_color, 100000, true⟩ bg_color ⟨"vgg", true⟩
              none)) Task.MULTI_SEQUENCE).2.results)) := by
  constructor
  · intro datasets dataloaders test_dataset batches a rest sel image_size
      hget htest hload hA hsel hne hw
    have hcams := get_source_cameras_single env test_dataset num_workers a rest sel
      hA hsel hne
    have h := evaluate_ok env category Task.SINGLE_SEQUENCE bg_color
      single_sequence_id num_workers path_manager datasets dataloaders test_dataset
      batches _ image_size hget htest hload hcams hw
    simp [h]
  · intro datasets dataloaders test_dataset batches image_size hget htest hload hw
    have h := evaluate_ok env category Task.MULTI_SEQUENCE bg_color
      single_sequence_id num_workers path_manager datasets dataloaders test_dataset
      batches none image_size hget htest hload
      (get_source_cameras_multi env test_dataset num_workers) hw
    simp [h]

/-- Witness for C8 at a concrete environment, discharging both the
single-sequence and multi-sequence parts. -/
theorem C8_eval_source_cameras_witness :
    (evaluate_dbir_for_category okEnv "apple" Task.SINGLE_SEQUENCE bg_color_default
        (some 0) 16 none).2
      = Except.ok ((okEnv.summarize_nvs_eval_results
          ([goodBatch].map (eval_one_batch okEnv ⟨8, 8, bg_color_default, 100000, true⟩
            bg_color_default ⟨"vgg", true⟩
            (some (([frame0].filter (fun f => okEnv.is_known_frame f.frame_type)).map
              Frame.camera)))) Task.SINGLE_SEQUENCE).2.results)
    ∧ (evaluate_dbir_for_category okEnv "apple" Task.MULTI_SEQUENCE bg_color_default
        (some 0) 16 none).2
      = Except.ok ((okEnv.summarize_nvs_eval_results
          ([goodBatch].map (eval_one_batch okEnv ⟨8, 8, bg_color_default, 100000, true⟩
            bg_color_default ⟨"vgg", true⟩ none)) Task.MULTI_SEQUENCE).2.results) :=
  ⟨(C8_eval_source_cameras okEnv "apple" bg_color_default (some 0) 16 none).1
      ⟨none, none, some goodDataset⟩ ⟨none, none, some [goodBatch]⟩ goodDataset
      [goodBatch] ⟨⟨"seq0"⟩⟩ [] [frame0] 8 rfl rfl rfl rfl rfl (by decide) rfl,
   (C8_eval_source_cameras okEnv "apple" bg_color_default (some 0) 16 none).2
      ⟨none, none, some goodDataset⟩ ⟨none, none, some [goodBatch]⟩ goodDataset
      [goodBatch] 8 rfl rfl rfl rfl⟩

/-- Events that construct or exercise a model or evaluate a batch. -/
def isModelEvent : Event → Bool
  | .buildModel _ => true
  | .modelCuda => true
  | .buildLpips _ => true
  | .lpipsCuda => true
  | .cudaBatch _ => true
  | .runModelOn _ => true
  | .evalBatchDone _ => true
  | _ => false

/-- The errors _get_all_source_cameras can raise are an IndexError or the
DataLoader batch-size ValueError, never one of the two eval_demo ValueErrors. -/
theorem get_all_source_cameras_error (env : Env) (ds : Dataset) (seq : String)
    (nw : Nat) (e : PyError)
    (h : get_all_source_cameras env ds seq nw = Except.error e) :
    e = PyError.indexError "list index out of range"
    ∨ e = PyError.valueError
        "batch_size should be a positive integer value, but got batch_size=0"
    ∨ e = PyError.indexError "index out of range" := by
  simp only [get_all_source_cameras] at h
  split at h
  · exact Or.inl (by injection h with h1; exact h1.symm)
  · split at h
    · exact Or.inr (Or.inl (by injection h with h1; exact h1.symm))
    · split at h
      · exact Or.inr (Or.inr (by injection h with h1; exact h1.symm))
      · exact absurd h (by simp)

/-- The errors get_source_cameras can raise, likewise. -/
theorem get_source_cameras_error (env : Env) (task : Task) (ds : Dataset)
    (nw : Nat) (e : PyError)
    (h : get_source_cameras env task ds nw = Except.error e) :
    e = PyError.indexError "list index out of range"
    ∨ e = PyError.valueError
        "batch_size should be a positive integer value, but got batch_size=0"
    ∨ e = PyError.indexError "index out of range" := by
  unfold get_source_cameras at h
  split at h
  · split at h
    · exact Or.inl (by injection h with h1; exact h1.symm)
    · split at h
      · rename_i e' he
        injection h with h1
        exact h1 ▸ get_all_source_cameras_error env ds _ nw e' he
      · exact absurd h (by simp)
  · exact absurd h (by simp)

/-- Counterexample to C3 as stated: in this concrete environment the test
dataset and dataloader both exist and the image width is unset, yet the call
raises an IndexError (from frame_annots[0] on the empty list in the
single-sequence source-camera step), not the claimed ValueError. -/
theorem C3_counterexample_index_error_first :
    ((cexEnv.get_datasets_and_dataloaders
        (dataSourceArgsFor cexEnv "apple" Task.SINGLE_SEQUENCE (some 0) none)).1.test
      = some cexDataset)
    ∧ ((cexEnv.get_datasets_and_dataloaders
        (dataSourceArgsFor cexEnv "apple" Task.SINGLE_SEQUENCE (some 0) none)).2.test
      = some [])
    ∧ cexDataset.image_width = none
    ∧ (evaluate_dbir_for_category cexEnv "apple" Task.SINGLE_SEQUENCE
        bg_color_default (some 0) 16 none).2
      = Except.error (PyError.indexError "list index out of range") :=
  ⟨rfl, rfl, rfl, rfl⟩

/-- C3 (amended): evaluate_dbir_for_category raises ValueError
'must have a test dataset.' iff the test dataset or test dataloader is None;
it raises ValueError 'Image size should be set in the dataset' iff the test
split exists, the single-sequence source-camera step (when applicable)
succeeds, and the image width is None; any of these two ValueErrors is raised
before any model is constructed or any batch evaluated; and when a test split
with a set image width exists, neither named ValueError branch is reachable
regardless of the source-camera step. -/
theorem C3_value_error_conditions (env : Env) (category : String) (task : Task)
    (bg_color : Color) (single_sequence_id : Option Int) (num_workers : Nat)
    (path_manager : Option PathManager) (datasets : DataSets)
    (dataloaders : DataLoaders)
    (hget : env.get_datasets_and_dataloaders
        (dataSourceArgsFor env category task single_sequence_id path_manager)
        = (datasets, dataloaders)) :
    ((evaluate_dbir_for_category env category task bg_color single_sequence_id
        num_workers path_manager).2
      = Except.error (PyError.valueError "must have a test dataset.")
      ↔ (datasets.test = none ∨ dataloaders.test = none))
    ∧ ((evaluate_dbir_for_category env category task bg_color single_sequence_id
        num_workers path_manager).2
      = Except.error (PyError.valueError "Image size should be set in the dataset")
      ↔ ∃ (test_dataset : Dataset) (batches : List FrameData)
          (cams : Option (List Camera)),
          datasets.test = some test_dataset ∧ dataloaders.test = some batches
          ∧ get_source_cameras env task test_dataset num_workers = Except.ok cams
          ∧ test_dataset.image_width = none)
    ∧ (∀ msg : String,
        (evaluate_dbir_for_category env category task bg_color single_sequence_id
          num_workers path_manager).2 = Except.error (PyError.valueError msg) →
        (evaluate_dbir_for_category env category task bg_color single_sequence_id
          num_workers path_manager).1.filter isModelEvent = [])
    ∧ (∀ (test_dataset : Dataset) (batches : List FrameData) (image_size : Nat),
        datasets.test = some test_dataset → dataloaders.test = some batches →
        test_dataset.image_width = some image_size →
        (evaluate_dbir_for_category env category task bg_color single_sequence_id
            num_workers path_manager).2
          ≠ Except.error (PyError.valueError "must have a test dataset.")
        ∧ (evaluate_dbir_for_category env category task bg_color single_sequence_id
            num_workers path_manager).2
          ≠ Except.error
              (PyError.valueError "Image size should be set in the dataset")) := by
  rcases hd : datasets.test with _ | test_dataset
  · refine ⟨by simp [evaluate_dbir_for_category, evaluate_body, hget, hd], ?_, ?_, ?_⟩
    · simp [evaluate_dbir_for_category, evaluate_body, hget, hd]
    · intro msg hmsg
      simp [evaluate_dbir_for_category, evaluate_body, hget, hd, isModelEvent]
    · intro td batches image_size htd
      exact absurd htd (by simp)
  · rcases hl : dataloaders.test with _ | batches
    · refine ⟨by simp [evaluate_dbir_for_category, evaluate_body, hget, hd, hl], ?_,
        ?_, ?_⟩
      · simp [evaluate_dbir_for_category, evaluate_body, hget, hd, hl]
      · intro msg hmsg
        simp [evaluate_dbir_for_category, evaluate_body, hget, hd, hl, isModelEvent]
      · intro td bl image_size htd hbl
        exact absurd hbl (by simp)
    · rcases hc : get_source_cameras env task test_dataset num_workers
        with e | cams
      · have herr := get_source_cameras_error env task test_dataset num_workers e hc
        refine ⟨?_, ?_, ?_, ?_⟩
        · simp only [evaluate_dbir_for_category, evaluate_body, hget, hd, hl, hc]
          constructor
          · intro habs
            rcases herr with h1 | h1 | h1 <;> subst h1 <;> simp_all
          · intro habs
            rcases habs with habs | habs <;> simp_all
        · simp only [evaluate_dbir_for_category, evaluate_body, hget, hd, hl, hc]
          constructor
          · intro habs
            rcases herr with h1 | h1 | h1 <;> subst h1 <;> simp_all
          · rintro ⟨td, bl, cams, htd, hbl, hcams, hwidth⟩
            injection htd with htd
            subst htd
            rw [hcams] at hc
            exact absurd hc (by simp)
        · intro msg hmsg
          simp [evaluate_dbir_for_category, evaluate_body, hget, hd, hl, hc,
            isModelEvent]
        · intro td bl image_size htd hbl hwidth
          simp only [evaluate_dbir_for_category, evaluate_body, hget, hd, hl, hc]
          rcases herr with h1 | h1 | h1 <;> subst h1 <;> simp_all
      · rcases hw : test_dataset.image_width with _ | image_size
        · refine ⟨?_, ?_, ?_, ?_⟩
          · simp [evaluate_dbir_for_category, evaluate_body, hget, hd, hl, hc, hw]
          · simp only [evaluate_dbir_for_category, evaluate_body, hget, hd, hl, hc,
              hw]
            constructor
            · intro _
              exact ⟨test_dataset, batches, cams, rfl, rfl, hc, hw⟩
            · intro _
              simp
          · intro msg hmsg
            simp [evaluate_dbir_for_category, evaluate_body, hget, hd, hl, hc, hw,
              isModelEvent]
          · intro td bl w htd hbl hwidth
            injection htd with htd
            subst htd
            rw [hw] at hwidth
            exact absurd hwidth (by simp)
        · have h := evaluate_ok env category task bg_color single_sequence_id
            num_workers path_manager datasets dataloaders test_dataset batches cams
            image_size hget hd hl hc hw
          refine ⟨by simp [h], ?_, ?_, ?_⟩
          · simp only [h]
            constructor
            · intro habs
              exact absurd habs (by simp)
            · rintro ⟨td, bl, cams2, htd, hbl, hcams, hwidth⟩
              injection htd with htd
              subst htd
              rw [hw] at hwidth
              exact absurd hwidth (by simp)
          · intro msg hmsg
            rw [h] at hmsg
            exact absurd hmsg (by simp)
          · intro td bl w htd hbl hwidth
            simp [h]

/-- Witness for C3 (amended) at a concrete environment with a well-formed test
split: no ValueError is raised. -/
theorem C3_value_error_conditions_witness :
    ((evaluate_dbir_for_category okEnv "apple" Task.MULTI_SEQUENCE bg_color_default
        none 16 none).2
      = Except.error (PyError.valueError "must have a test dataset.")
      ↔ ((⟨none, none, some goodDataset⟩ : DataSets).test = none
          ∨ (⟨none, none, some [goodBatch]⟩ : DataLoaders).test = none))
    ∧ ((evaluate_dbir_for_category okEnv "apple" Task.MULTI_SEQUENCE bg_color_default
        none 16 none).2
      = Except.error (PyError.valueError "Image size should be set in the dataset")
      ↔ ∃ (test_dataset : Dataset) (batches : List FrameData)
          (cams : Option (List Camera)),
          (⟨none, none, some goodDataset⟩ : DataSets).test = some test_dataset
          ∧ (⟨none, none, some [goodBatch]⟩ : DataLoaders).test = some batches
          ∧ get_source_cameras okEnv Task.MULTI_SEQUENCE test_dataset 16
              = Except.ok cams
          ∧ test_dataset.image_width = none)
    ∧ (∀ msg : String,
        (evaluate_dbir_for_category okEnv "apple" Task.MULTI_SEQUENCE
          bg_color_default none 16 none).2 = Except.error (PyError.valueError msg) →
        (evaluate_dbir_for_category okEnv "apple" Task.MULTI_SEQUENCE
          bg_color_default none 16 none).1.filter isModelEvent = [])
    ∧ (∀ (test_dataset : Dataset) (batches : List FrameData) (image_size : Nat),
        (⟨none, none, some goodDataset⟩ : DataSets).test = some test_dataset →
        (⟨none, none, some [goodBatch]⟩ : DataLoaders).test = some batches →
        test_dataset.image_width = some image_size →
        (evaluate_dbir_for_category okEnv "apple" Task.MULTI_SEQUENCE
            bg_color_default none 16 none).2
          ≠ Except.error (PyError.valueError "must have a test dataset.")
        ∧ (evaluate_dbir_for_category okEnv "apple" Task.MULTI_SEQUENCE
            bg_color_default none 16 none).2
          ≠ Except.error
              (PyError.valueError "Image size should be set in the dataset")) :=
  C3_value_error_conditions okEnv "apple" Task.MULTI_SEQUENCE bg_color_default none
    16 none ⟨none, none, some goodDataset⟩ ⟨none, none, some [goodBatch]⟩ rfl

/-- Looking up a key just set returns the set value. -/
theorem dictGetD_dictSet_self (d : TaskDict) (t : Task) (v : List Results) :
    dictGetD (dictSet d t v) t = v := by
  induction d with
  | nil => simp [dictSet, dictGetD]
  | cons p rest ih =>
      obtain ⟨k, w⟩ := p
      by_cases hp : k = t
      · simp [dictSet, dictGetD, hp]
      · simp [dictSet, dictGetD, hp, ih]

/-- Setting a key twice keeps only the second value. -/
theorem dictSet_dictSet_self (d : TaskDict) (t : Task) (v w : List Results) :
    dictSet (dictSet d t v) t w = dictSet d t w := by
  induction d with
  | nil => simp [dictSet]
  | cons p rest ih =>
      obtain ⟨k, u⟩ := p
      by_cases hp : k = t
      · simp [dictSet, hp]
      · simp [dictSet, hp, ih]

/-- Appending to a key just set extends the set value. -/
theorem dictAppend_dictSet (d : TaskDict) (t : Task) (vs : List Results)
    (r : Results) :
    dictAppend (dictSet d t vs) t r = dictSet d t (vs ++ [r]) := by
  simp [dictAppend, dictGetD_dictSet_self, dictSet_dictSet_self]

/-- A per-call result assignment: what each evaluate_dbir_for_category call
returns, as a function of its varying arguments. -/
abbrev ResultFun := String → Task → Option Int → Results

/-- The trace chunk of main's inner sequence loop for one category, when every
call succeeds. -/
def seqTrace (r : ResultFun) (t : Task) (c : String)
    (sids : List (Option Int)) : List MainEvent :=
  sids.flatMap (fun s =>
    [MainEvent.callEval c t s, MainEvent.printLine "",
     MainEvent.printLine (resultsHeader t c s),
     MainEvent.printedResult (r c t s), MainEvent.printLine ""])

/-- The trace chunk of main's category loop for one task, when every call
succeeds: for each category the sequence-loop chunk followed by the running
aggregate print for the results accumulated so far. -/
def catTrace (env : Env) (r : ResultFun) (t : Task) (sids : List (Option Int)) :
    List Results → List String → List MainEvent
  | _, [] => []
  | vs, c :: rest =>
      seqTrace r t c sids
      ++ [MainEvent.printLine "",
          MainEvent.printLine ("Aggregate results for task=" ++ t.pyStr ++ ":"),
          MainEvent.printedAggregate t
            (env.aggregate_nvs_results (vs ++ sids.map (r c t))),
          MainEvent.printLine ""]
      ++ catTrace env r t sids (vs ++ sids.map (r c t)) rest

/-- When every call succeeds, the sequence loop emits one call/print group per
sequence id in order and appends the results to task_results[task] in order. -/
theorem seqLoop_spec (env : Env) (t : Task) (c : String) (r : ResultFun)
    (h : ∀ s, evalCall env c t s = Except.ok (r c t s)) :
    ∀ (sids : List (Option Int)) (d : TaskDict) (vs : List Results),
    seqLoop env t c sids (dictSet d t vs)
      = (seqTrace r t c sids,
         Except.ok (dictSet d t (vs ++ sids.map (r c t)))) := by
  intro sids
  induction sids with
  | nil => intro d vs; simp [seqLoop, seqTrace]
  | cons s rest ih =>
      intro d vs
      simp only [seqLoop, h s]
      rw [dictAppend_dictSet, ih d (vs ++ [r c t s])]
      simp [seqTrace]

/-- When every call succeeds, the category loop emits, for each category in
order, the sequence-loop chunk then the running aggregate print, and
accumulates all category results in task_results[task] in order. -/
theorem catLoop_spec (env : Env) (t : Task) (sids : List (Option Int))
    (r : ResultFun) (h : ∀ c s, evalCall env c t s = Except.ok (r c t s)) :
    ∀ (cats : List String) (d : TaskDict) (vs : List Results),
    catLoop env t sids cats (dictSet d t vs)
      = (catTrace env r t sids vs cats,
         Except.ok (dictSet d t
           (vs ++ cats.flatMap (fun c => sids.map (r c t))))) := by
  intro cats
  induction cats with
  | nil => intro d vs; simp [catLoop, catTrace]
  | cons c rest ih =>
      intro d vs
      simp only [catLoop, seqLoop_spec env t c r (h c) sids d vs]
      simp only [print_aggregate_results, dictGetD_dictSet_self]
      rw [ih d (vs ++ sids.map (r c t))]
      simp [catTrace]

/-- The results accumulated for the single-sequence task: one call per
(category, sequence id) pair over the first 20 categories, sequence ids 0 and 1. -/
def ssResultsSpec (env : Env) (r : ResultFun) : List Results :=
  (env.CO3D_CATEGORIES.take 20).flatMap (fun c =>
    [r c Task.SINGLE_SEQUENCE (some 0), r c Task.SINGLE_SEQUENCE (some 1)])

/-- The results accumulated for the multi-sequence task: one call per category
over the first 10 categories, with no sequence restriction. -/
def msResultsSpec (env : Env) (r : ResultFun) : List Results :=
  (env.CO3D_CATEGORIES.take 10).map (fun c => r c Task.MULTI_SEQUENCE none)

theorem flatMap_singleton_eq_map {α β : Type} (f : α → β) (l : List α) :
    l.flatMap (fun a => [f a]) = l.map f := by
  induction l with
  | nil => rfl
  | cons a l ih => simp [ih]

theorem taskSequenceIds_single : taskSequenceIds Task.SINGLE_SEQUENCE
    = [some 0, some 1] := rfl

theorem taskSequenceIds_multi : taskSequenceIds Task.MULTI_SEQUENCE = [none] := rfl

theorem taskCategories_single (env : Env) :
    taskCategories env Task.SINGLE_SEQUENCE = env.CO3D_CATEGORIES.take 20 := rfl

theorem taskCategories_multi (env : Env) :
    taskCategories env Task.MULTI_SEQUENCE = env.CO3D_CATEGORIES.take 10 := rfl

/-- When every call succeeds, main runs the single-sequence task over the first
20 categories with sequence ids 0 and 1, then the multi-sequence task over the
first 10 categories, then prints the final aggregates for both tasks in
insertion order, and its task_results dict holds the two tasks' result lists. -/
theorem main_spec (env : Env) (r : ResultFun)
    (h : ∀ c t s, evalCall env c t s = Except.ok (r c t s)) :
    main env
      = (catTrace env r Task.SINGLE_SEQUENCE [some 0, some 1] []
           (env.CO3D_CATEGORIES.take 20)
         ++ catTrace env r Task.MULTI_SEQUENCE [none] []
           (env.CO3D_CATEGORIES.take 10)
         ++ (print_aggregate_results env Task.SINGLE_SEQUENCE
              [(Task.SINGLE_SEQUENCE, ssResultsSpec env r),
               (Task.MULTI_SEQUENCE, msResultsSpec env r)]
            ++ print_aggregate_results env Task.MULTI_SEQUENCE
              [(Task.SINGLE_SEQUENCE, ssResultsSpec env r),
               (Task.MULTI_SEQUENCE, msResultsSpec env r)]),
         Except.ok [(Task.SINGLE_SEQUENCE, ssResultsSpec env r),
                    (Task.MULTI_SEQUENCE, msResultsSpec env r)]) := by
  have h20 := catLoop_spec env Task.SINGLE_SEQUENCE [some 0, some 1] r
    (fun c s => h c Task.SINGLE_SEQUENCE s) (env.CO3D_CATEGORIES.take 20) [] []
  have h10 := catLoop_spec env Task.MULTI_SEQUENCE [none] r
    (fun c s => h c Task.MULTI_SEQUENCE s) (env.CO3D_CATEGORIES.take 10)
    (dictSet [] Task.SINGLE_SEQUENCE
      ([] ++ (env.CO3D_CATEGORIES.take 20).flatMap (fun c =>
        [some 0, some 1].map (r c Task.SINGLE_SEQUENCE)))) []
  have hssr : ([] : List Results)
      ++ (env.CO3D_CATEGORIES.take 20).flatMap (fun c =>
        [some 0, some 1].map (r c Task.SINGLE_SEQUENCE))
      = ssResultsSpec env r := by
    simp [ssResultsSpec]
  have hmsr : ([] : List Results)
      ++ (env.CO3D_CATEGORIES.take 10).flatMap (fun c =>
        [none].map (r c Task.MULTI_SEQUENCE))
      = msResultsSpec env r := by
    simp [msResultsSpec, flatMap_singleton_eq_map]
  simp only [main, taskLoop, taskCategories_single, taskCategories_multi,
    taskSequenceIds_single, taskSequenceIds_multi]
  rw [h20]
  dsimp only
  rw [h10]
  dsimp only
  simp only [hssr, hmsr]
  simp [dictSet, dictGetD, print_aggregate_results]

/-- The (category, task, single_sequence_id) triples of the
evaluate_dbir_for_category calls in a main trace, in order. -/
def callEvents (tr : List MainEvent) : List (String × Task × Option Int) :=
  tr.filterMap (fun e =>
    match e with
    | MainEvent.callEval c t s => some (c, t, s)
    | _ => none)

/-- The calls C2 claims main makes: per (category, sequence id) pair over the
first 20 categories for the single-sequence task, then per category over the
first 10 for the multi-sequence task. -/
def expectedCalls (env : Env) : List (String × Task × Option Int) :=
  (env.CO3D_CATEGORIES.take 20).flatMap (fun c =>
    [(c, Task.SINGLE_SEQUENCE, some 0), (c, Task.SINGLE_SEQUENCE, some 1)])
  ++ (env.CO3D_CATEGORIES.take 10).map (fun c => (c, Task.MULTI_SEQUENCE, none))

theorem callEvents_seqTrace (r : ResultFun) (t : Task) (c : String) :
    ∀ sids, callEvents (seqTrace r t c sids) = sids.map (fun s => (c, t, s)) := by
  intro sids
  induction sids with
  | nil => rfl
  | cons s rest ih =>
      simp only [seqTrace, callEvents] at ih ⊢
      simp [List.flatMap_cons, ih]

theorem callEvents_append (l1 l2 : List MainEvent) :
    callEvents (l1 ++ l2) = callEvents l1 ++ callEvents l2 := by
  simp [callEvents]

theorem callEvents_catTrace (env : Env) (r : ResultFun) (t : Task)
    (sids : List (Option Int)) :
    ∀ (cats : List String) (vs : List Results),
    callEvents (catTrace env r t sids vs cats)
      = cats.flatMap (fun c => sids.map (fun s => (c, t, s))) := by
  intro cats
  induction cats with
  | nil => intro vs; rfl
  | cons c rest ih =>
      intro vs
      simp only [catTrace, callEvents_append, callEvents_seqTrace, ih]
      simp [callEvents, List.flatMap_cons]

theorem callEvents_print_aggregate (env : Env) (t : Task) (d : TaskDict) :
    callEvents (print_aggregate_results env t d) = [] := rfl

/-- C2: main evaluates exactly the two tasks in the order SINGLE_SEQUENCE then
MULTI_SEQUENCE; for SINGLE_SEQUENCE it calls evaluate_dbir_for_category once per
(category, sequence id) pair over the first 20 CO3D categories with sequence
ids 0 and 1, for MULTI_SEQUENCE once per category over the first 10 with no
sequence restriction, and appends each per-category result to
task_results[task]. -/
theorem C2_main_call_structure (env : Env) (r : ResultFun)
    (h : ∀ c t s, evalCall env c t s = Except.ok (r c t s)) :
    callEvents (main env).1 = expectedCalls env
    ∧ (main env).2 = Except.ok
        [(Task.SINGLE_SEQUENCE, ssResultsSpec env r),
         (Task.MULTI_SEQUENCE, msResultsSpec env r)] := by
  rw [main_spec env r h]
  constructor
  · simp only [callEvents_append, callEvents_catTrace, callEvents_print_aggregate,
      expectedCalls]
    simp [flatMap_singleton_eq_map]
  · rfl

/-- The per-call result at the concrete okEnv environment. -/
def constResult : ResultFun := fun _ _ _ => ⟨1⟩

/-- Witness for C2 at the concrete okEnv environment, where every call
succeeds with result constResult. -/
theorem C2_main_call_structure_witness :
    callEvents (main okEnv).1 = expectedCalls okEnv
    ∧ (main okEnv).2 = Except.ok
        [(Task.SINGLE_SEQUENCE, ssResultsSpec okEnv constResult),
         (Task.MULTI_SEQUENCE, msResultsSpec okEnv constResult)] :=
  C2_main_call_structure okEnv constResult (by
    intro c t s
    cases t <;> rfl)

/-- The printed-metrics events of a main trace: per-result pretty prints and
aggregate pretty prints, in order. -/
def printEvents (tr : List MainEvent) : List MainEvent :=
  tr.filter (fun e =>
    match e with
    | MainEvent.printedResult _ => true
    | MainEvent.printedAggregate _ _ => true
    | _ => false)

/-- The print structure C6 claims for one task: per category, each call's
result printed right after the call, then one aggregate over all results
accumulated so far for the task. -/
def expectedTaskPrints (env : Env) (r : ResultFun) (t : Task)
    (sids : List (Option Int)) : List Results → List String → List MainEvent
  | _, [] => []
  | sofar, c :: rest =>
      (sids.map (fun s => MainEvent.printedResult (r c t s)))
      ++ [MainEvent.printedAggregate t
            (env.aggregate_nvs_results (sofar ++ sids.map (r c t)))]
      ++ expectedTaskPrints env r t sids (sofar ++ sids.map (r c t)) rest

theorem printEvents_append (l1 l2 : List MainEvent) :
    printEvents (l1 ++ l2) = printEvents l1 ++ printEvents l2 := by
  simp [printEvents]

theorem printEvents_seqTrace (r : ResultFun) (t : Task) (c : String) :
    ∀ sids, printEvents (seqTrace r t c sids)
      = sids.map (fun s => MainEvent.printedResult (r c t s)) := by
  intro sids
  induction sids with
  | nil => rfl
  | cons s rest ih =>
      simp only [seqTrace, printEvents] at ih ⊢
      simp [List.flatMap_cons, ih]

theorem printEvents_catTrace (env : Env) (r : ResultFun) (t : Task)
    (sids : List (Option Int)) :
    ∀ (cats : List String) (vs : List Results),
    printEvents (catTrace env r t sids vs cats)
      = expectedTaskPrints env r t sids vs cats := by
  intro cats
  induction cats with
  | nil => intro vs; rfl
  | cons c rest ih =>
      intro vs
      simp only [catTrace, expectedTaskPrints, printEvents_append,
        printEvents_seqTrace, ih]
      simp [printEvents]

/-- C6: main prints each per-category result right after its call; it prints
the aggregate for the current task (aggregate_nvs_results over all results
accumulated so far for that task) once after every category's inner loop, and
after both tasks finish prints the aggregate once more for every task in
task_results. -/
theorem C6_print_structure (env : Env) (r : ResultFun)
    (h : ∀ c t s, evalCall env c t s = Except.ok (r c t s)) :
    printEvents (main env).1
      = expectedTaskPrints env r Task.SINGLE_SEQUENCE [some 0, some 1] []
          (env.CO3D_CATEGORIES.take 20)
        ++ expectedTaskPrints env r Task.MULTI_SEQUENCE [none] []
          (env.CO3D_CATEGORIES.take 10)
        ++ [MainEvent.printedAggregate Task.SINGLE_SEQUENCE
              (env.aggregate_nvs_results (ssResultsSpec env r)),
            MainEvent.printedAggregate Task.MULTI_SEQUENCE
              (env.aggregate_nvs_results (msResultsSpec env r))] := by
  rw [main_spec env r h]
  simp only [printEvents_append, printEvents_catTrace]
  simp [printEvents, print_aggregate_results, dictGetD]

/-- Witness for C6 at the concrete okEnv environment. -/
theorem C6_print_structure_witness :
    printEvents (main okEnv).1
      = expectedTaskPrints okEnv constResult Task.SINGLE_SEQUENCE [some 0, some 1]
          [] (okEnv.CO3D_CATEGORIES.take 20)
        ++ expectedTaskPrints okEnv constResult Task.MULTI_SEQUENCE [none] []
          (okEnv.CO3D_CATEGORIES.take 10)
        ++ [MainEvent.printedAggregate Task.SINGLE_SEQUENCE
              (okEnv.aggregate_nvs_results (ssResultsSpec okEnv constResult)),
            MainEvent.printedAggregate Task.MULTI_SEQUENCE
              (okEnv.aggregate_nvs_results (msResultsSpec okEnv constResult))] :=
  C6_print_structure okEnv constResult (by
    intro c t s
    cases t <;> rfl)

/-- C4: the companion test serializes the default ImplicitronDataSource
configuration to YAML with unsorted keys and passes if and only if that YAML
string equals, character for character, the contents of the golden file
data_source.yaml. -/
theorem C4_snapshot_equality (w : TestWorld) :
    (test_one DEBUG w).2 = true
      ↔ w.to_yaml w.implicitron_data_source_defaults false = w.data_source_yaml := by
  simp [test_one, DEBUG]

/-- Witness for C4 at a concrete world whose golden file matches. -/
theorem C4_snapshot_equality_witness :
    (test_one DEBUG matchWorld).2 = true
      ↔ matchWorld.to_yaml matchWorld.implicitron_data_source_defaults false
        = matchWorld.data_source_yaml :=
  C4_snapshot_equality matchWorld

/-- C10: the module-level DEBUG flag defaults to False; when DEBUG is True the
test overwrites the golden file with the freshly serialized default
configuration before comparing, so the equality assertion always passes in
that mode. -/
theorem C10_debug_mode_overwrites (w : TestWorld) :
    DEBUG = false
    ∧ (test_one true w).1.data_source_yaml
        = w.to_yaml w.implicitron_data_source_defaults false
    ∧ (test_one true w).2 = true := by
  refine ⟨rfl, rfl, ?_⟩
  simp [test_one]

/-- Witness for C10 at a concrete world with a stale golden file: debug mode
still passes. -/
theorem C10_debug_mode_overwrites_witness :
    DEBUG = false
    ∧ (test_one true staleWorld).1.data_source_yaml
        = staleWorld.to_yaml staleWorld.implicitron_data_source_defaults false
    ∧ (test_one true staleWorld).2 = true :=
  C10_debug_mode_overwrites staleWorld

end P3D
